import Mathlib

/-!
Verification of the Pattern Engine of the Awareness app
(`server/patterns.ts`, bundled in `src/ionic-apk-package/dist/index.js`,
class `ConsciousnessAnalyzer`).

The analyzer is a pure function over an ordered list of daily records.
JavaScript numbers are modelled as rationals (`ℚ`); all inputs are small
integers, so the arithmetic here matches the floating-point arithmetic of
the source on every value the claims touch.  `Math.round` is
`fun q => ⌊q + 1/2⌋` (JS rounds half toward positive infinity).
JS objects with dynamic keys are modelled as association lists; a JS `Set`
is a list deduplicated in first-insertion order.
-/

/-- JS `Math.round`: round half toward positive infinity. -/
def jsRound (q : ℚ) : ℤ := ⌊q + 1/2⌋

/-- JS `Math.round(q * 100) / 100`: rounding to two decimal places. -/
def jsRound2 (q : ℚ) : ℚ := (jsRound (q * 100) : ℚ) / 100

/-- Adding one element to a JS `Set` kept as a list in insertion order. -/
def insertDedup (seen : List String) (x : String) : List String :=
  if x ∈ seen then seen else seen ++ [x]

/-- The JS `Set` built by inserting the elements of `l` in order. -/
def jsSetOf (l : List String) : List String := l.foldl insertDedup []

/-- The ordinal mood value: `["low","neutral","elevated","high","peak"].indexOf(tag)`,
with the JS fallback `moodScore >= 0 ? moodScore : 2` for unrecognized tags. -/
def moodScore (tag : String) : ℚ :=
  match ["low", "neutral", "elevated", "high", "peak"].findIdx? (fun s => s == tag) with
  | some i => (i : ℚ)
  | none => 2

/-- An apostrophe, kept out of string literals. -/
def apos : String := String.singleton (Char.ofNat 39)

/-- One daily self-report record (`DailyEntry` rows as the analyzer reads them). -/
structure DailyRecord where
  date : String
  categories : List (String × ℚ)
  thoughts : List (String × ℚ)
  emotionTag : String
  identityTag : String
  journalEntry : String
deriving DecidableEq

/-- A detected emotional cycle, as pushed by `detectEmotionalCycles`. -/
structure CycleRecord where
  pattern : String
  frequency : ℕ
  lastOccurrence : String
  confidence : ℚ
deriving DecidableEq

/-- A category trend, as pushed by `analyzeCategoryTrends`. -/
structure TrendRecord where
  category : String
  trend : String
  change : ℤ
deriving DecidableEq

/-- A thought-impact entry, as pushed by `analyzeThoughtPatterns`. -/
structure ThoughtRecord where
  thought : String
  correlation : ℚ
  impact : String
deriving DecidableEq

/-- The combined output of `analyzePatterns`. -/
structure PatternResult where
  emotionalCycles : List CycleRecord
  categoryTrends : List TrendRecord
  thoughtPatterns : List ThoughtRecord
  readinessScore : ℤ
  insights : List String
deriving DecidableEq

/-- One row of the fixed next-level requirements table. -/
structure LevelReq where
  entries : ℕ
  patterns : ℕ
  coherence : ℕ
  tasks : List String
deriving DecidableEq

/-- The output of `getNextLevelRequirements`. -/
structure NextLevelRequirements where
  entriesNeeded : ℤ
  patternsNeeded : ℤ
  coherenceNeeded : ℤ
  specificTasks : List String
deriving DecidableEq

/-- The output of `calculateLevelProgress`. -/
structure LevelProgress where
  currentLevel : ℕ
  entriesCompleted : ℕ
  patternsIdentified : ℕ
  coherenceDays : ℕ
  achievements : List String
  nextLevelRequirements : NextLevelRequirements
deriving DecidableEq

namespace ConsciousnessAnalyzer

/-- Whether the window of `seq` starting at `i` matches `pat`, compared the way
the source does: `sequence.slice(i, i + pattern.length).join("") === pattern.join("")`. -/
def joinMatch (seq : List String) (i : ℕ) (pat : List String) : Bool :=
  String.join ((seq.drop i).take pat.length) == String.join pat

/-- `countPatternOccurrences`: the upward scan
`for (i = 0; i <= sequence.length - pattern.length; i++) if (join match) count++`. -/
def countPatternOccurrences (seq pat : List String) : ℕ :=
  (List.range (seq.length + 1 - pat.length)).countP (fun i => joinMatch seq i pat)

/-- The downward scan of `findLastOccurrenceIndex`, from start index `m` toward 0. -/
def findLastFrom (seq pat : List String) : ℕ → Option ℕ
  | 0 => if joinMatch seq 0 pat then some 0 else none
  | i + 1 => if joinMatch seq (i + 1) pat then some (i + 1) else findLastFrom seq pat i

/-- `findLastOccurrenceIndex`: scan `i` from `sequence.length - pattern.length`
down to 0, returning the first join match (`none` plays the role of `-1`). -/
def findLastOccurrenceIndex (seq pat : List String) : Option ℕ :=
  if pat.length ≤ seq.length then findLastFrom seq pat (seq.length - pat.length) else none

/-- The body of the `detectEmotionalCycles` loop at index `i`: push a cycle
record when the triad at `i` occurs more than once. -/
def makeCycle (entries : List DailyRecord) (i : ℕ) : Option CycleRecord :=
  let seq := entries.map DailyRecord.emotionTag
  let pat := (seq.drop i).take 3
  let occurrences := countPatternOccurrences seq pat
  if 1 < occurrences then
    some { pattern := String.intercalate " → " pat,
           frequency := occurrences,
           lastOccurrence :=
             match findLastOccurrenceIndex seq pat with
             | some j => ((entries.get? j).map DailyRecord.date).getD ""
             | none => "",
           confidence := min ((occurrences : ℚ) / (entries.length : ℚ) * 100) 95 }
  else none

/-- The `cycles` array of `detectEmotionalCycles` before `slice(0, 5)`:
the loop runs `i` from 0 to `sequence.length - 3`. -/
def detectCyclesAll (entries : List DailyRecord) : List CycleRecord :=
  (List.range (entries.length - 2)).filterMap (makeCycle entries)

/-- `detectEmotionalCycles`: the loop result truncated to its first 5 entries. -/
def detectEmotionalCycles (entries : List DailyRecord) : List CycleRecord :=
  (detectCyclesAll entries).take 5

/-- `calculateCategoryAverage`: mean of the category values over the records
that contain the key, `null` (here `none`) when no record does. -/
def calculateCategoryAverage (entries : List DailyRecord) (category : String) :
    Option ℚ :=
  let values := entries.filterMap (fun e => e.categories.lookup category)
  if 0 < values.length then some (values.sum / (values.length : ℚ)) else none

/-- `entries.slice(-7)`: the last 7 records. -/
def recentWindow (entries : List DailyRecord) : List DailyRecord :=
  entries.drop (entries.length - 7)

/-- `entries.slice(-14, -7)`: the 7 records before the last 7 (clamped like
JS `slice` when fewer than 14 records exist). -/
def olderWindow (entries : List DailyRecord) : List DailyRecord :=
  (entries.take (entries.length - 7)).drop (entries.length - 14)

/-- `analyzeCategoryTrends`. -/
def analyzeCategoryTrends (entries : List DailyRecord) : List TrendRecord :=
  if entries.length < 7 then []
  else
    let recent := recentWindow entries
    let older := olderWindow entries
    let cats := jsSetOf ((entries.map (fun e => e.categories.map Prod.fst)).flatten)
    cats.filterMap (fun category =>
      match calculateCategoryAverage recent category,
            calculateCategoryAverage older category with
      | some recentAvg, some olderAvg =>
          let change : ℚ := (recentAvg - olderAvg) / olderAvg * 100
          let trend := if 10 < change then "improving"
            else if change < -10 then "declining" else "stable"
          some { category := category, trend := trend, change := jsRound change }
      | _, _ => none)

/-- The records contributing to a thought label, as the parallel
`thoughtValues`/`moodValues` arrays of `calculateThoughtImpact`
(value of the thought, ordinal mood of the record). -/
def contributingPairs (entries : List DailyRecord) (thought : String) :
    List (ℚ × ℚ) :=
  entries.filterMap (fun e =>
    (e.thoughts.lookup thought).map (fun v => (v, moodScore e.emotionTag)))

/-- `calculateThoughtImpact`. -/
def calculateThoughtImpact (entries : List DailyRecord) (thought : String) : ℚ :=
  let pairs := contributingPairs entries thought
  if pairs.length < 3 then 0
  else
    let avgThought := (pairs.map Prod.fst).sum / (pairs.length : ℚ)
    let avgMood := (pairs.map Prod.snd).sum / (pairs.length : ℚ)
    let correlation :=
      (pairs.map (fun p => (p.1 - avgThought) * (p.2 - avgMood))).sum
    correlation / (pairs.length : ℚ) / 10

/-- The record pushed by `analyzeThoughtPatterns` for one thought label. -/
def thoughtRecordFor (entries : List DailyRecord) (thought : String) :
    ThoughtRecord :=
  let correlation := calculateThoughtImpact entries thought
  let impact := if (3 : ℚ) / 10 < correlation then "positive"
    else if correlation < -(3 / 10) then "negative" else "neutral"
  { thought := thought, correlation := jsRound2 correlation, impact := impact }

/-- `analyzeThoughtPatterns`: one record per discovered thought label,
truncated to the first 5. -/
def analyzeThoughtPatterns (entries : List DailyRecord) : List ThoughtRecord :=
  let thoughts := jsSetOf ((entries.map (fun e => e.thoughts.map Prod.fst)).flatten)
  (thoughts.map (thoughtRecordFor entries)).take 5

/-- The completeness test of `calculateReadinessScore`: at least 3 category
entries, at least 2 thought entries, and a journal entry longer than 20
characters. -/
def isCompleteRecord (e : DailyRecord) : Bool :=
  decide (3 ≤ e.categories.length) && decide (2 ≤ e.thoughts.length) &&
    decide (20 < e.journalEntry.length)

/-- The `hasCompleteData` count of `calculateReadinessScore`. -/
def completeCount (entries : List DailyRecord) : ℕ :=
  (entries.filter isCompleteRecord).length

/-- Distinct emotion tags plus distinct identity tags. -/
def varietyCount (entries : List DailyRecord) : ℕ :=
  (jsSetOf (entries.map DailyRecord.emotionTag)).length +
    (jsSetOf (entries.map DailyRecord.identityTag)).length

/-- `calculateReadinessScore`. -/
def calculateReadinessScore (entries : List DailyRecord) : ℤ :=
  if entries.length < 7 then min ((entries.length : ℤ) * 14) 100
  else
    let consistency : ℚ :=
      if 7 ≤ entries.length then 40 else (entries.length : ℚ) / 7 * 40
    let score := consistency +
      (completeCount entries : ℚ) / (entries.length : ℚ) * 30 +
      min ((varietyCount entries : ℚ) * 3) 30
    jsRound score

/-- `generateInsights`: the four rule-based insight strings, in fixed order. -/
def generateInsights (entries : List DailyRecord) (cycles : List CycleRecord)
    (trends : List TrendRecord) : List String :=
  let recentEntries := entries.drop (entries.length - 3)
  let avgMood : ℚ :=
    (recentEntries.map (fun e => moodScore e.emotionTag)).sum /
      (recentEntries.length : ℚ)
  let improving := trends.filter (fun t => t.trend == "improving")
  (if 7 ≤ entries.length then
    ["You" ++ apos ++ "ve established a consistent awareness tracking practice"]
   else []) ++
  (if 0 < cycles.length then
    ["Detected " ++ toString cycles.length ++
      " recurring emotional patterns - you" ++ apos ++
      "re developing pattern recognition"]
   else []) ++
  (if 0 < improving.length then
    [toString improving.length ++
      " life areas are improving - your awareness is creating positive shifts"]
   else []) ++
  (if 3 ≤ avgMood then
    ["Your recent emotional state shows elevated awareness - you" ++ apos ++
      "re entering a higher frequency"]
   else [])

/-- `analyzePatterns`: the whole Pattern Engine, with its 5-record gate. -/
def analyzePatterns (entries : List DailyRecord) : PatternResult :=
  if entries.length < 5 then
    { emotionalCycles := [], categoryTrends := [], thoughtPatterns := [],
      readinessScore := 0,
      insights := ["Keep tracking daily to unlock pattern insights"] }
  else
    let emotionalCycles := detectEmotionalCycles entries
    let categoryTrends := analyzeCategoryTrends entries
    let thoughtPatterns := analyzeThoughtPatterns entries
    { emotionalCycles := emotionalCycles,
      categoryTrends := categoryTrends,
      thoughtPatterns := thoughtPatterns,
      readinessScore := calculateReadinessScore entries,
      insights := generateInsights entries emotionalCycles categoryTrends }

/-- The per-record coherence test of `calculateCoherenceDays`.  An empty
mapping gives average `0/0`, which compares below every threshold, exactly
as the `NaN` comparisons of the source do. -/
def isCoherentDay (e : DailyRecord) : Bool :=
  let categoryAvg : ℚ :=
    (e.categories.map Prod.snd).sum / (e.categories.length : ℚ)
  let thoughtAvg : ℚ := (e.thoughts.map Prod.snd).sum / (e.thoughts.length : ℚ)
  (decide (6 ≤ categoryAvg) && decide (6 ≤ thoughtAvg)) ||
    (decide (7 ≤ categoryAvg) && decide (7 ≤ thoughtAvg))

/-- `calculateCoherenceDays`. -/
def calculateCoherenceDays (entries : List DailyRecord) : ℕ :=
  entries.countP isCoherentDay

/-- `calculateAchievements`: all qualifying badges, in push order. -/
def calculateAchievements (entries patterns coherence : ℕ) : List String :=
  (if 7 ≤ entries then ["Observer Foundation"] else []) ++
  (if 21 ≤ entries then ["Pattern Seeker"] else []) ++
  (if 50 ≤ entries then ["Reality Tracker"] else []) ++
  (if 100 ≤ entries then ["Consciousness Master"] else []) ++
  (if 3 ≤ patterns then ["Pattern Detector"] else []) ++
  (if 10 ≤ patterns then ["Loop Breaker"] else []) ++
  (if 7 ≤ coherence then ["Frequency Aligner"] else []) ++
  (if 21 ≤ coherence then ["Timeline Shifter"] else [])

/-- The `requirements` table of `getNextLevelRequirements`. -/
def levelRequirementTable (n : ℕ) : Option LevelReq :=
  match n with
  | 1 => some { entries := 7, patterns := 0, coherence := 0,
                tasks := ["Complete 7 daily awareness entries",
                          "Track all required life categories"] }
  | 2 => some { entries := 21, patterns := 3, coherence := 0,
                tasks := ["Identify 3 recurring patterns",
                          "Maintain consistent tracking"] }
  | 3 => some { entries := 50, patterns := 10, coherence := 7,
                tasks := ["Break old patterns", "Achieve 7 coherent days"] }
  | 4 => some { entries := 100, patterns := 15, coherence := 21,
                tasks := ["Master frequency alignment",
                          "Sustain 21 coherent days"] }
  | _ => none

/-- `getNextLevelRequirements`: target level `min(level + 1, 5)`, with the
`requirements[nextLevel] || requirements[4]` fallback. -/
def getNextLevelRequirements (level entries patterns coherence : ℕ) :
    NextLevelRequirements :=
  let nextLevel := min (level + 1) 5
  let req := (levelRequirementTable nextLevel).getD
    { entries := 100, patterns := 15, coherence := 21,
      tasks := ["Master frequency alignment", "Sustain 21 coherent days"] }
  { entriesNeeded := max 0 ((req.entries : ℤ) - (entries : ℤ)),
    patternsNeeded := max 0 ((req.patterns : ℤ) - (patterns : ℤ)),
    coherenceNeeded := max 0 ((req.coherence : ℤ) - (coherence : ℤ)),
    specificTasks := req.tasks }

/-- `calculateLevelProgress`. -/
def calculateLevelProgress (entries : List DailyRecord) (currentLevel : ℕ) :
    LevelProgress :=
  let entriesCompleted := entries.length
  let patterns := analyzePatterns entries
  let patternsIdentified :=
    patterns.emotionalCycles.length + patterns.categoryTrends.length
  let coherenceDays := calculateCoherenceDays entries
  { currentLevel := currentLevel,
    entriesCompleted := entriesCompleted,
    patternsIdentified := patternsIdentified,
    coherenceDays := coherenceDays,
    achievements :=
      calculateAchievements entriesCompleted patternsIdentified coherenceDays,
    nextLevelRequirements :=
      getNextLevelRequirements currentLevel entriesCompleted patternsIdentified
        coherenceDays }

/-- Claim C2 words the association as the MEAN of
`(thoughtValue - thoughtMean) * (moodValue - moodMean)` over the contributing
records, "divided again by the count of contributing records and by the
damping constant 10", rounded to 2 decimal places. -/
def specAssociationClaimed (entries : List DailyRecord) (thought : String) : ℚ :=
  let pairs := contributingPairs entries thought
  let thoughtMean := (pairs.map Prod.fst).sum / (pairs.length : ℚ)
  let moodMean := (pairs.map Prod.snd).sum / (pairs.length : ℚ)
  let meanProduct :=
    (pairs.map (fun p => (p.1 - thoughtMean) * (p.2 - moodMean))).sum /
      (pairs.length : ℚ)
  jsRound2 (meanProduct / (pairs.length : ℚ) / 10)

/-- The association as the source computes it, worded spec-side: the mean of
`(thoughtValue - thoughtMean) * (moodValue - moodMean)` over the contributing
records, divided by the damping constant 10 (that is, the sum divided once by
the count and once by 10), before rounding. -/
def specAssociationMeanProd (entries : List DailyRecord) (thought : String) : ℚ :=
  let pairs := contributingPairs entries thought
  let thoughtMean := (pairs.map Prod.fst).sum / (pairs.length : ℚ)
  let moodMean := (pairs.map Prod.snd).sum / (pairs.length : ℚ)
  ((pairs.map (fun p => (p.1 - thoughtMean) * (p.2 - moodMean))).sum /
      (pairs.length : ℚ)) / 10

/-- Claim C3 words the cycle count as the number of possibly overlapping
length-3 windows of the sequence equal to the exact triad. -/
def specExactTriadCount (seq pat : List String) : ℕ :=
  ((List.range (seq.length + 1 - 3)).filter
    (fun j => (seq.drop j).take 3 == pat)).length

/-- The cycle count as the source computes it, worded spec-side: the number of
length-3 windows whose concatenation equals the triad's concatenation. -/
def specJoinTriadCount (seq pat : List String) : ℕ :=
  ((List.range (seq.length + 1 - 3)).filter
    (fun j => String.join ((seq.drop j).take 3) == String.join pat)).length

/-- Claim C4 worded spec-side: per-category trend from the means over the two
windows, each restricted to the records containing the category key, skipped
when either contributing set is empty. -/
def specCategoryTrend (entries : List DailyRecord) (category : String) :
    Option TrendRecord :=
  let rc := (recentWindow entries).filter
    (fun e => (e.categories.lookup category).isSome)
  let oc := (olderWindow entries).filter
    (fun e => (e.categories.lookup category).isSome)
  if rc.length = 0 ∨ oc.length = 0 then none
  else
    let recentMean :=
      (rc.filterMap (fun e => e.categories.lookup category)).sum / (rc.length : ℚ)
    let olderMean :=
      (oc.filterMap (fun e => e.categories.lookup category)).sum / (oc.length : ℚ)
    let change := (recentMean - olderMean) / olderMean * 100
    some { category := category,
           trend := if 10 < change then "improving"
             else if change < -10 then "declining" else "stable",
           change := jsRound change }

/-- A record with only a date and an emotion tag filled in. -/
def plainRecord (d tag : String) : DailyRecord :=
  { date := d, categories := [], thoughts := [], emotionTag := tag,
    identityTag := "me", journalEntry := "" }

/-- A record with a date, an emotion tag and a thoughts mapping. -/
def thoughtRecord (d tag : String) (ths : List (String × ℚ)) : DailyRecord :=
  { date := d, categories := [], thoughts := ths, emotionTag := tag,
    identityTag := "me", journalEntry := "" }

/-- A record with a date and a single health category score. -/
def healthRecord (d : String) (v : ℚ) : DailyRecord :=
  { date := d, categories := [("health", v)], thoughts := [],
    emotionTag := "low", identityTag := "me", journalEntry := "" }

/-- A fully filled record: 3 categories, 2 thoughts, a long journal entry. -/
def completeRecord (d : String) : DailyRecord :=
  { date := d, categories := [("a", 5), ("b", 5), ("c", 5)],
    thoughts := [("x", 5), ("y", 5)], emotionTag := "low", identityTag := "me",
    journalEntry := "this journal entry is long enough" }

/-- The spec example sequence `[low,neutral,elevated,low,neutral,elevated,peak]`. -/
def exCycleEntries : List DailyRecord :=
  [plainRecord "d0" "low", plainRecord "d1" "neutral",
   plainRecord "d2" "elevated", plainRecord "d3" "low",
   plainRecord "d4" "neutral", plainRecord "d5" "elevated",
   plainRecord "d6" "peak"]

/-- Six records whose emotion tags collide under `join("")`:
the window `[ab,c,d]` and the window `[a,bc,d]` concatenate to the same
string although they are different triads. -/
def exCollisionEntries : List DailyRecord :=
  [plainRecord "d0" "ab", plainRecord "d1" "c", plainRecord "d2" "d",
   plainRecord "d3" "a", plainRecord "d4" "bc", plainRecord "d5" "d"]

/-- Five records of which exactly three carry the thought label `t`, with
thought values 1, 2, 3 and ordinal moods 0, 1, 2. -/
def exThoughtEntries : List DailyRecord :=
  [thoughtRecord "d0" "low" [("t", 1)], thoughtRecord "d1" "neutral" [("t", 2)],
   thoughtRecord "d2" "elevated" [("t", 3)], thoughtRecord "d3" "low" [],
   thoughtRecord "d4" "low" []]

/-- The spec example for the trend analyzer: category health scores 5 in each
of the 7 older records and 8 in each of the 7 recent records. -/
def exTrendEntries : List DailyRecord :=
  [healthRecord "d0" 5, healthRecord "d1" 5, healthRecord "d2" 5,
   healthRecord "d3" 5, healthRecord "d4" 5, healthRecord "d5" 5,
   healthRecord "d6" 5, healthRecord "d7" 8, healthRecord "d8" 8,
   healthRecord "d9" 8, healthRecord "d10" 8, healthRecord "d11" 8,
   healthRecord "d12" 8, healthRecord "d13" 8]

/-- Seven sparse records: no complete data, one emotion tag, one identity tag. -/
def exSparseSeven : List DailyRecord :=
  [plainRecord "d0" "low", plainRecord "d1" "low", plainRecord "d2" "low",
   plainRecord "d3" "low", plainRecord "d4" "low", plainRecord "d5" "low",
   plainRecord "d6" "low"]

/-- Seven records every one of which passes the completeness test. -/
def exRichSeven : List DailyRecord :=
  [completeRecord "d0", completeRecord "d1", completeRecord "d2",
   completeRecord "d3", completeRecord "d4", completeRecord "d5",
   completeRecord "d6"]

/-- Six sparse records. -/
def exSparseSix : List DailyRecord := exSparseSeven.take 6

/-- Five sparse records. -/
def exSparseFive : List DailyRecord := exSparseSeven.take 5

theorem jsRound_mono {a b : ℚ} (h : a ≤ b) : jsRound a ≤ jsRound b :=
  Int.floor_mono (by linarith)

theorem jsRound_le_of_le {a : ℚ} {z : ℤ} (h : (z : ℚ) ≤ a) : z ≤ jsRound a :=
  Int.le_floor.mpr (by linarith)

theorem jsRound_lt_of_lt {a : ℚ} {z : ℤ} (h : a + 1/2 < (z : ℚ)) : jsRound a < z := by
  have h1 : (jsRound a : ℚ) ≤ a + 1/2 := Int.floor_le _
  exact_mod_cast lt_of_le_of_lt h1 h

theorem le_length_foldl_insertDedup (l : List String) :
    ∀ seen : List String, seen.length ≤ (l.foldl insertDedup seen).length := by
  induction l with
  | nil => intro seen; exact le_refl _
  | cons a t ih =>
    intro seen
    rw [List.foldl_cons]
    refine le_trans ?_ (ih (insertDedup seen a))
    unfold insertDedup
    split
    · exact le_refl _
    · simp

theorem one_le_jsSetOf_length {l : List String} (h : l ≠ []) :
    1 ≤ (jsSetOf l).length := by
  cases l with
  | nil => exact absurd rfl h
  | cons a t =>
    unfold jsSetOf
    rw [List.foldl_cons]
    have ha : insertDedup [] a = [a] := by unfold insertDedup; simp
    rw [ha]
    exact le_trans (by norm_num) (le_length_foldl_insertDedup t [a])

theorem filter_isSome_filterMap {α β : Type} (f : α → Option β) (l : List α) :
    (l.filter (fun x => (f x).isSome)).filterMap f = l.filterMap f := by
  induction l with
  | nil => rfl
  | cons a t ih =>
    by_cases h : (f a).isSome
    · obtain ⟨b, hb⟩ := Option.isSome_iff_exists.mp h
      simp [List.filter_cons, List.filterMap_cons, hb, ih]
    · have hb : f a = none := Option.not_isSome_iff_eq_none.mp h
      simp [List.filter_cons, List.filterMap_cons, hb, ih]

theorem length_filterMap_eq_length_filter {α β : Type} (f : α → Option β)
    (l : List α) :
    (l.filterMap f).length = (l.filter (fun x => (f x).isSome)).length := by
  induction l with
  | nil => rfl
  | cons a t ih =>
    by_cases h : (f a).isSome
    · obtain ⟨b, hb⟩ := Option.isSome_iff_exists.mp h
      simp [List.filter_cons, List.filterMap_cons, hb, ih]
    · have hb : f a = none := Option.not_isSome_iff_eq_none.mp h
      simp [List.filter_cons, List.filterMap_cons, hb, ih]

theorem findLastFrom_exists (seq pat : List String) :
    ∀ m k : ℕ, k ≤ m → joinMatch seq k pat = true →
    ∃ j, findLastFrom seq pat m = some j ∧ k ≤ j ∧ j ≤ m := by
  intro m
  induction m with
  | zero =>
    intro k hk hm
    have hk0 : k = 0 := Nat.le_zero.mp hk
    subst hk0
    exact ⟨0, by simp [findLastFrom, hm], le_refl _, le_refl _⟩
  | succ m ih =>
    intro k hk hm
    by_cases h : joinMatch seq (m + 1) pat = true
    · exact ⟨m + 1, by simp [findLastFrom, h], hk, le_refl _⟩
    · have hk' : k ≤ m := by
        rcases Nat.lt_or_ge k (m + 1) with h1 | h1
        · omega
        · exact absurd (le_antisymm hk h1 ▸ hm) h
      obtain ⟨j, hj, hkj, hjm⟩ := ih k hk' hm
      exact ⟨j, by simp [findLastFrom, h, hj], hkj, le_trans hjm (Nat.le_succ m)⟩

theorem joinMatch_self (seq : List String) (i : ℕ) :
    joinMatch seq i ((seq.drop i).take 3) = true := by
  unfold joinMatch
  have htt : (seq.drop i).take ((seq.drop i).take 3).length = (seq.drop i).take 3 := by
    rw [List.length_take]
    rcases le_total 3 (seq.drop i).length with h | h
    · rw [min_eq_left h]
    · rw [min_eq_right h, List.take_length, List.take_of_length_le h]
  rw [htt]
  exact beq_self_eq_true _

theorem triad_length {l : List String} {i : ℕ} (h : i + 3 ≤ l.length) :
    ((l.drop i).take 3).length = 3 := by
  rw [List.length_take, List.length_drop]
  omega

theorem findLast_self (seq : List String) (i : ℕ) (h : i + 3 ≤ seq.length) :
    ∃ j, findLastOccurrenceIndex seq ((seq.drop i).take 3) = some j ∧
      i ≤ j ∧ j + 3 ≤ seq.length := by
  have hpl : ((seq.drop i).take 3).length = 3 := triad_length h
  unfold findLastOccurrenceIndex
  rw [hpl, if_pos (by omega : 3 ≤ seq.length)]
  obtain ⟨j, hj, hij, hjm⟩ :=
    findLastFrom_exists seq ((seq.drop i).take 3) (seq.length - 3) i (by omega)
      (joinMatch_self seq i)
  exact ⟨j, hj, hij, by omega⟩

theorem countPattern_eq_specJoin (seq pat : List String) (h : pat.length = 3) :
    countPatternOccurrences seq pat = specJoinTriadCount seq pat := by
  unfold countPatternOccurrences specJoinTriadCount joinMatch
  rw [h, List.countP_eq_length_filter]

theorem calculateCategoryAverage_spec_form (es : List DailyRecord) (cat : String) :
    calculateCategoryAverage es cat =
      (if (es.filter (fun e => (e.categories.lookup cat).isSome)).length = 0
       then none
       else some
        (((es.filter (fun e => (e.categories.lookup cat).isSome)).filterMap
            (fun e => e.categories.lookup cat)).sum /
          (((es.filter (fun e => (e.categories.lookup cat).isSome)).length : ℕ) : ℚ))) := by
  simp only [calculateCategoryAverage]
  rw [length_filterMap_eq_length_filter (fun e => e.categories.lookup cat) es,
    ← filter_isSome_filterMap (fun e => e.categories.lookup cat) es]
  rcases Nat.eq_zero_or_pos
      (es.filter (fun e => (e.categories.lookup cat).isSome)).length with h | h
  · rw [if_neg (by omega), if_pos h]
  · rw [if_pos h, if_neg (by omega)]

/-- Claim C1: for every input sequence of fewer than 5 records,
`analyzePatterns` returns empty cycle, trend and thought lists, readiness
score 0 and exactly the single keep-tracking insight (the early return fires,
so none of the four analyzers contributes to the result). -/
theorem analyzePatterns_below_threshold (entries : List DailyRecord)
    (h : entries.length < 5) :
    analyzePatterns entries =
      { emotionalCycles := [], categoryTrends := [], thoughtPatterns := [],
        readinessScore := 0,
        insights := ["Keep tracking daily to unlock pattern insights"] } := by
  unfold analyzePatterns
  rw [if_pos h]

/-- Witness for C1: the empty record list is below the threshold and gets the
default result. -/
theorem analyzePatterns_below_threshold_witness :
    ([] : List DailyRecord).length < 5 ∧
    analyzePatterns [] =
      { emotionalCycles := [], categoryTrends := [], thoughtPatterns := [],
        readinessScore := 0,
        insights := ["Keep tracking daily to unlock pattern insights"] } :=
  ⟨by decide, analyzePatterns_below_threshold [] (by decide)⟩

/-- Counterexample to claim C2 as stated: on `exThoughtEntries` the label `t`
has 3 contributing records, the reported association is 0.07, while the
claimed formula (the mean of the centered products divided AGAIN by the count
and by 10, rounded) gives 0.02. -/
theorem thought_association_claimed_counterexample :
    3 ≤ (contributingPairs exThoughtEntries "t").length ∧
    (thoughtRecordFor exThoughtEntries "t").correlation = 7 / 100 ∧
    specAssociationClaimed exThoughtEntries "t" = 1 / 50 ∧
    (7 : ℚ) / 100 ≠ 1 / 50 := by
  refine ⟨by decide, by with_unfolding_all rfl, by with_unfolding_all rfl, by norm_num⟩

/-- Claim C2, amended: for a thought label with at least 3 contributing
records the reported association is the mean of
`(thoughtValue - thoughtMean) * (moodValue - moodMean)` over the contributing
records divided by the damping constant 10 (the sum divided once by the
count, not twice), rounded to 2 decimal places, and the classification
applies the 0.3 thresholds to the unrounded value; for a label with fewer
than 3 contributing records the association is 0 and the classification is
neutral. -/
theorem thought_association_amended (entries : List DailyRecord) (t : String) :
    (3 ≤ (contributingPairs entries t).length →
      thoughtRecordFor entries t =
        { thought := t,
          correlation := jsRound2 (specAssociationMeanProd entries t),
          impact := if (3 : ℚ) / 10 < specAssociationMeanProd entries t
            then "positive"
            else if specAssociationMeanProd entries t < -(3 / 10)
            then "negative" else "neutral" }) ∧
    ((contributingPairs entries t).length < 3 →
      calculateThoughtImpact entries t = 0 ∧
      thoughtRecordFor entries t =
        { thought := t, correlation := 0, impact := "neutral" }) := by
  constructor
  · intro h3
    have himp : calculateThoughtImpact entries t = specAssociationMeanProd entries t := by
      unfold calculateThoughtImpact specAssociationMeanProd
      rw [if_neg (by omega)]
    unfold thoughtRecordFor
    rw [himp]
  · intro h3
    have himp : calculateThoughtImpact entries t = 0 := by
      unfold calculateThoughtImpact
      rw [if_pos h3]
    refine ⟨himp, ?_⟩
    have h2 : jsRound2 0 = 0 := by
      unfold jsRound2 jsRound
      norm_num
    have hpos : ¬ ((3 : ℚ) / 10 < 0) := by norm_num
    have hneg : ¬ ((0 : ℚ) < -(3 / 10)) := by norm_num
    simp only [thoughtRecordFor, himp, h2, if_neg hpos, if_neg hneg]

/-- Witness for C2: the label `t` of `exThoughtEntries` has 3 contributing
records and its reported association is the rounded amended statistic. -/
theorem thought_association_amended_witness :
    3 ≤ (contributingPairs exThoughtEntries "t").length ∧
    (contributingPairs (exThoughtEntries.take 1) "t").length < 3 ∧
    thoughtRecordFor exThoughtEntries "t" =
      { thought := "t",
        correlation := jsRound2 (specAssociationMeanProd exThoughtEntries "t"),
        impact := if (3 : ℚ) / 10 < specAssociationMeanProd exThoughtEntries "t"
          then "positive"
          else if specAssociationMeanProd exThoughtEntries "t" < -(3 / 10)
          then "negative" else "neutral" } ∧
    calculateThoughtImpact (exThoughtEntries.take 1) "t" = 0 :=
  ⟨by decide, by decide,
   (thought_association_amended exThoughtEntries "t").1 (by decide),
   ((thought_association_amended (exThoughtEntries.take 1) "t").2 (by decide)).1⟩

/-- Claim C5: on `entriesCompleted = 7`, `patternsIdentified = 0`,
`coherenceDays = 0`, `currentLevel = 1`, the progression calculator yields
exactly the achievement list `["Observer Foundation"]` and next-level
requirements `entriesNeeded = 14`, `patternsNeeded = 3`,
`coherenceNeeded = 0` for target level 2. -/
theorem progression_example :
    calculateAchievements 7 0 0 = ["Observer Foundation"] ∧
    getNextLevelRequirements 1 7 0 0 =
      { entriesNeeded := 14, patternsNeeded := 3, coherenceNeeded := 0,
        specificTasks := ["Identify 3 recurring patterns",
                          "Maintain consistent tracking"] } := by
  exact ⟨by decide, by decide⟩

/-- Claim C7: with exactly 5 or 6 records the readiness score is
`min(count * 14, 100)` — 70 for 5 records, 84 for 6 — and the composite
consistency/completeness/variety branch is not what produces the score. -/
theorem readiness_small_count (entries : List DailyRecord)
    (h : entries.length = 5 ∨ entries.length = 6) :
    calculateReadinessScore entries = min ((entries.length : ℤ) * 14) 100 ∧
    (entries.length = 5 → calculateReadinessScore entries = 70) ∧
    (entries.length = 6 → calculateReadinessScore entries = 84) := by
  have h7 : entries.length < 7 := by rcases h with h | h <;> omega
  refine ⟨?_, ?_, ?_⟩
  · unfold calculateReadinessScore
    rw [if_pos h7]
  · intro h5
    unfold calculateReadinessScore
    rw [if_pos h7, h5]
    decide
  · intro h6
    unfold calculateReadinessScore
    rw [if_pos h7, h6]
    decide

/-- Witness for C7: five sparse records score 70 and six score 84. -/
theorem readiness_small_count_witness :
    calculateReadinessScore exSparseFive = 70 ∧
    calculateReadinessScore exSparseSix = 84 :=
  ⟨(readiness_small_count exSparseFive (Or.inl (by decide))).2.1 (by decide),
   (readiness_small_count exSparseSix (Or.inr (by decide))).2.2 (by decide)⟩

/-- Counterexample to claim C3 as stated: on the six tags
`[ab, c, d, a, bc, d]` a cycle record is emitted for the triad at index 0
with frequency 2, although only 1 length-3 window equals that exact triad —
the source compares windows by `join("")`, which identifies `[ab,c,d]` with
`[a,bc,d]`. -/
theorem cycle_exact_triad_counterexample :
    5 ≤ exCollisionEntries.length ∧
    (detectEmotionalCycles exCollisionEntries).head? =
      some { pattern := "ab → c → d", frequency := 2, lastOccurrence := "d3",
             confidence := 100 / 3 } ∧
    specExactTriadCount (exCollisionEntries.map DailyRecord.emotionTag)
      ["ab", "c", "d"] = 1 := by
  refine ⟨by decide, by with_unfolding_all rfl, by decide⟩

/-- Claim C3, amended: for a sequence of length at least 5 and a start index
`i` with `i + 3 ≤ n`, a cycle record is produced for the triad at `i` iff
more than one length-3 window has the same concatenation as the triad (for
tags from the fixed emotion vocabulary this coincides with exact triad
equality), and the produced record carries that occurrence count as its
frequency and confidence `min(occurrences / n * 100, 95)`; on the spec
example sequence the triad low-neutral-elevated is reported with frequency 2
and confidence `200/7`. -/
theorem cycle_emission_amended :
    (∀ (entries : List DailyRecord) (i : ℕ), 5 ≤ entries.length →
      i + 3 ≤ entries.length →
      ((makeCycle entries i).isSome ↔
        1 < specJoinTriadCount (entries.map DailyRecord.emotionTag)
              (((entries.map DailyRecord.emotionTag).drop i).take 3)) ∧
      (∀ c, makeCycle entries i = some c →
        c.frequency = specJoinTriadCount (entries.map DailyRecord.emotionTag)
            (((entries.map DailyRecord.emotionTag).drop i).take 3) ∧
        c.confidence =
          min ((c.frequency : ℚ) / (entries.length : ℚ) * 100) 95 ∧
        c.pattern = String.intercalate " → "
            (((entries.map DailyRecord.emotionTag).drop i).take 3))) ∧
    detectEmotionalCycles exCycleEntries =
      [{ pattern := "low → neutral → elevated", frequency := 2,
         lastOccurrence := "d3", confidence := 200 / 7 },
       { pattern := "low → neutral → elevated", frequency := 2,
         lastOccurrence := "d3", confidence := 200 / 7 }] := by
  refine ⟨?_, by with_unfolding_all rfl⟩
  intro entries i _h5 h3
  have hlen : (entries.map DailyRecord.emotionTag).length = entries.length :=
    List.length_map entries DailyRecord.emotionTag
  have hpl :
      (((entries.map DailyRecord.emotionTag).drop i).take 3).length = 3 :=
    triad_length (by omega)
  have hco :
      countPatternOccurrences (entries.map DailyRecord.emotionTag)
          (((entries.map DailyRecord.emotionTag).drop i).take 3) =
        specJoinTriadCount (entries.map DailyRecord.emotionTag)
          (((entries.map DailyRecord.emotionTag).drop i).take 3) :=
    countPattern_eq_specJoin _ _ hpl
  constructor
  · rw [← hco]
    by_cases hocc : 1 < countPatternOccurrences (entries.map DailyRecord.emotionTag)
        (((entries.map DailyRecord.emotionTag).drop i).take 3)
    · simp [makeCycle, hocc]
    · simp [makeCycle, hocc]
  · intro c hc
    by_cases hocc : 1 < countPatternOccurrences (entries.map DailyRecord.emotionTag)
        (((entries.map DailyRecord.emotionTag).drop i).take 3)
    · simp only [makeCycle, if_pos hocc, Option.some.injEq] at hc
      subst hc
      exact ⟨hco, rfl, rfl⟩
    · simp [makeCycle, hocc] at hc

/-- Witness for C3: on the spec example sequence the triad at index 0 is
emitted. -/
theorem cycle_emission_amended_witness :
    (makeCycle exCycleEntries 0).isSome :=
  (cycle_emission_amended.1 exCycleEntries 0 (by decide) (by decide)).1.mpr
    (by decide)

/-- Claim C9: whenever the loop of `detectEmotionalCycles` emits a record for
the triad at index `i`, the downward last-occurrence search succeeds with an
index between `i` and `n - 3`, so the record lookup succeeds and the emitted
`lastOccurrence` is the date of an actual input record — the empty-string
fallback is never the source of the value. -/
theorem cycle_lastOccurrence_valid :
    (∀ (entries : List DailyRecord) (i : ℕ), i + 3 ≤ entries.length →
      1 < countPatternOccurrences (entries.map DailyRecord.emotionTag)
            (((entries.map DailyRecord.emotionTag).drop i).take 3) →
      ∃ j, findLastOccurrenceIndex (entries.map DailyRecord.emotionTag)
              (((entries.map DailyRecord.emotionTag).drop i).take 3) = some j ∧
           i ≤ j ∧ j + 3 ≤ entries.length) ∧
    (∀ entries : List DailyRecord, ∀ c ∈ detectCyclesAll entries,
      ∃ e ∈ entries, c.lastOccurrence = e.date) := by
  have hmain : ∀ (entries : List DailyRecord) (i : ℕ), i + 3 ≤ entries.length →
      ∃ j, findLastOccurrenceIndex (entries.map DailyRecord.emotionTag)
              (((entries.map DailyRecord.emotionTag).drop i).take 3) = some j ∧
           i ≤ j ∧ j + 3 ≤ entries.length := by
    intro entries i h3
    have hlen : (entries.map DailyRecord.emotionTag).length = entries.length :=
      List.length_map entries DailyRecord.emotionTag
    obtain ⟨j, hj, hij, hjn⟩ :=
      findLast_self (entries.map DailyRecord.emotionTag) i (by omega)
    exact ⟨j, hj, hij, by omega⟩
  constructor
  · intro entries i h3 _
    exact hmain entries i h3
  · intro entries c hc
    obtain ⟨i, hi, hmk⟩ := List.mem_filterMap.mp hc
    have hrange : i < entries.length - 2 := List.mem_range.mp hi
    have h3 : i + 3 ≤ entries.length := by omega
    obtain ⟨j, hj, _hij, hjn⟩ := hmain entries i h3
    by_cases hocc : 1 < countPatternOccurrences (entries.map DailyRecord.emotionTag)
        (((entries.map DailyRecord.emotionTag).drop i).take 3)
    · have hlt : j < entries.length := by omega
      have hget : entries.get? j = some (entries.get ⟨j, hlt⟩) :=
        List.get?_eq_get hlt
      simp only [makeCycle, if_pos hocc, hj, hget, Option.map_some, Option.getD_some,
        Option.some.injEq] at hmk
      subst hmk
      exact ⟨entries.get ⟨j, hlt⟩, List.get_mem entries j hlt, rfl⟩
    · simp [makeCycle, hocc] at hmk

/-- Witness for C9: on the spec example sequence the search for the triad at
index 0 lands on index 3, and each emitted record carries the date of an
input record. -/
theorem cycle_lastOccurrence_valid_witness :
    (∃ j, findLastOccurrenceIndex (exCycleEntries.map DailyRecord.emotionTag)
            (((exCycleEntries.map DailyRecord.emotionTag).drop 0).take 3) = some j ∧
          0 ≤ j ∧ j + 3 ≤ exCycleEntries.length) ∧
    (∃ e ∈ exCycleEntries,
      ({ pattern := "low → neutral → elevated", frequency := 2,
         lastOccurrence := "d3", confidence := 200 / 7 } : CycleRecord).lastOccurrence =
        e.date) := by
  constructor
  · exact cycle_lastOccurrence_valid.1 exCycleEntries 0 (by decide) (by decide)
  · refine cycle_lastOccurrence_valid.2 exCycleEntries _ ?_
    have hall : detectCyclesAll exCycleEntries =
        [{ pattern := "low → neutral → elevated", frequency := 2,
           lastOccurrence := "d3", confidence := 200 / 7 },
         { pattern := "low → neutral → elevated", frequency := 2,
           lastOccurrence := "d3", confidence := 200 / 7 }] := by
      with_unfolding_all rfl
    rw [hall]
    exact List.mem_cons_self _ _

theorem completeCount_le_length (es : List DailyRecord) :
    completeCount es ≤ es.length :=
  List.length_filter_le isCompleteRecord es

/-- Claim C4: with at least 7 records the trend analyzer computes, per
category, the mean over the last 7 records and over the records at positions
`[-14, -7)`, each restricted to the records containing the category key,
skips a category whose contributing set is empty in either window, and
otherwise emits percent change `(recent - older) / older * 100` rounded to
the nearest integer, classified improving above 10 and declining below -10;
with fewer than 7 records the result is empty; on the spec example the
health category improves by 60. -/
theorem category_trends_spec :
    (∀ entries : List DailyRecord, 7 ≤ entries.length →
      analyzeCategoryTrends entries =
        (jsSetOf ((entries.map (fun e => e.categories.map Prod.fst)).flatten)).filterMap
          (specCategoryTrend entries)) ∧
    (∀ entries : List DailyRecord, entries.length < 7 →
      analyzeCategoryTrends entries = []) ∧
    analyzeCategoryTrends exTrendEntries =
      [{ category := "health", trend := "improving", change := 60 }] := by
  refine ⟨?_, ?_, by with_unfolding_all rfl⟩
  · intro entries h7
    simp only [analyzeCategoryTrends]
    rw [if_neg (not_lt.mpr h7)]
    refine congrArg (fun f => List.filterMap f _) (funext fun cat => ?_)
    rw [calculateCategoryAverage_spec_form (recentWindow entries) cat,
      calculateCategoryAverage_spec_form (olderWindow entries) cat]
    simp only [specCategoryTrend]
    by_cases h1 : ((recentWindow entries).filter
        (fun e => (e.categories.lookup cat).isSome)).length = 0 <;>
      by_cases h2 : ((olderWindow entries).filter
        (fun e => (e.categories.lookup cat).isSome)).length = 0
    · simp [h1, h2]
    · simp [h1, h2]
    · simp [h1, h2]
    · simp [h1, h2]
  · intro entries h7
    simp only [analyzeCategoryTrends]
    rw [if_pos h7]

/-- Witness for C4: the 14-record spec example is in the spec form, and five
records give the empty trend list. -/
theorem category_trends_spec_witness :
    analyzeCategoryTrends exTrendEntries =
      (jsSetOf ((exTrendEntries.map (fun e => e.categories.map Prod.fst)).flatten)).filterMap
        (specCategoryTrend exTrendEntries) ∧
    analyzeCategoryTrends exSparseFive = [] :=
  ⟨category_trends_spec.1 exTrendEntries (by decide),
   category_trends_spec.2.1 exSparseFive (by decide)⟩

/-- Claim C6: holding the record count fixed, the readiness score is
monotonic non-decreasing in the number of complete records and in the number
of distinct emotion plus identity tags, and every score lies within
`[0, 100]`. -/
theorem readiness_monotone_bounded :
    (∀ es1 es2 : List DailyRecord, es1.length = es2.length →
      completeCount es1 ≤ completeCount es2 →
      varietyCount es1 ≤ varietyCount es2 →
      calculateReadinessScore es1 ≤ calculateReadinessScore es2) ∧
    (∀ es : List DailyRecord,
      0 ≤ calculateReadinessScore es ∧ calculateReadinessScore es ≤ 100) := by
  constructor
  · intro es1 es2 hlen hc hv
    simp only [calculateReadinessScore]
    rw [hlen]
    by_cases h7 : es2.length < 7
    · rw [if_pos h7, if_pos h7]
    · rw [if_neg h7, if_neg h7]
      apply jsRound_mono
      have hn : (0 : ℚ) < (es2.length : ℚ) := by
        have h0 : 0 < es2.length := by omega
        exact_mod_cast h0
      have hcomp : (completeCount es1 : ℚ) / (es2.length : ℚ) * 30 ≤
          (completeCount es2 : ℚ) / (es2.length : ℚ) * 30 := by
        have h1 : (completeCount es1 : ℚ) ≤ (completeCount es2 : ℚ) := by
          exact_mod_cast hc
        exact mul_le_mul_of_nonneg_right ((div_le_div_iff_of_pos_right hn).mpr h1)
          (by norm_num)
      have hvar : min ((varietyCount es1 : ℚ) * 3) 30 ≤
          min ((varietyCount es2 : ℚ) * 3) 30 := by
        refine min_le_min ?_ le_rfl
        have h1 : (varietyCount es1 : ℚ) ≤ (varietyCount es2 : ℚ) := by
          exact_mod_cast hv
        exact mul_le_mul_of_nonneg_right h1 (by norm_num)
      linarith
  · intro es
    simp only [calculateReadinessScore]
    by_cases h7 : es.length < 7
    · rw [if_pos h7]
      constructor
      · exact le_min (by positivity) (by norm_num)
      · exact min_le_right _ _
    · rw [if_neg h7]
      have hn : (0 : ℚ) < (es.length : ℚ) := by
        have h0 : 0 < es.length := by omega
        exact_mod_cast h0
      rw [if_pos (by omega : 7 ≤ es.length)]
      have hc0 : (0 : ℚ) ≤ (completeCount es : ℚ) / (es.length : ℚ) * 30 := by
        positivity
      have hc30 : (completeCount es : ℚ) / (es.length : ℚ) * 30 ≤ 30 := by
        have h1 : (completeCount es : ℚ) ≤ (es.length : ℚ) := by
          exact_mod_cast completeCount_le_length es
        have h2 : (completeCount es : ℚ) / (es.length : ℚ) ≤ 1 :=
          (div_le_one hn).mpr h1
        linarith [mul_le_mul_of_nonneg_right h2 (by norm_num : (0 : ℚ) ≤ 30)]
      have hv0 : (0 : ℚ) ≤ min ((varietyCount es : ℚ) * 3) 30 :=
        le_min (by positivity) (by norm_num)
      have hv30 : min ((varietyCount es : ℚ) * 3) 30 ≤ 30 := min_le_right _ _
      constructor
      · exact jsRound_le_of_le (by push_cast; linarith)
      · have h101 : jsRound (40 + (completeCount es : ℚ) / (es.length : ℚ) * 30 +
            min ((varietyCount es : ℚ) * 3) 30) < 101 :=
          jsRound_lt_of_lt (by push_cast; linarith)
        omega

/-- Witness for C6: seven sparse records score at most seven complete
records, and the sparse score is within the bounds. -/
theorem readiness_monotone_bounded_witness :
    calculateReadinessScore exSparseSeven ≤ calculateReadinessScore exRichSeven ∧
    0 ≤ calculateReadinessScore exSparseSeven ∧
    calculateReadinessScore exSparseSeven ≤ 100 :=
  ⟨readiness_monotone_bounded.1 exSparseSeven exRichSeven (by decide) (by decide)
     (by decide),
   (readiness_monotone_bounded.2 exSparseSeven).1,
   (readiness_monotone_bounded.2 exSparseSeven).2⟩

/-- Claim C10: with at least 7 records the readiness score is at least 46
(40 consistency points plus at least 6 variety points, a non-empty sequence
having at least one distinct emotion and one distinct identity tag), while 6
records always score 84 — so the score drops across the 6-to-7 boundary, as
the sparse 7-record example scoring exactly 46 shows. -/
theorem readiness_floor_and_boundary :
    (∀ es : List DailyRecord, 7 ≤ es.length → 46 ≤ calculateReadinessScore es) ∧
    (∀ es : List DailyRecord, es.length = 6 →
      calculateReadinessScore es = 84) ∧
    exSparseSeven.length = 7 ∧ calculateReadinessScore exSparseSeven = 46 := by
  refine ⟨?_, ?_, by decide, by with_unfolding_all rfl⟩
  · intro es h7
    simp only [calculateReadinessScore]
    rw [if_neg (by omega), if_pos h7]
    have hn : (0 : ℚ) < (es.length : ℚ) := by
      have h0 : 0 < es.length := by omega
      exact_mod_cast h0
    have hne : es.map DailyRecord.emotionTag ≠ [] := by
      have hl : (es.map DailyRecord.emotionTag).length = es.length :=
        List.length_map es DailyRecord.emotionTag
      intro h
      rw [h] at hl
      simp at hl
      omega
    have hni : es.map DailyRecord.identityTag ≠ [] := by
      have hl : (es.map DailyRecord.identityTag).length = es.length :=
        List.length_map es DailyRecord.identityTag
      intro h
      rw [h] at hl
      simp at hl
      omega
    have hv : 2 ≤ varietyCount es := by
      unfold varietyCount
      have h1 := one_le_jsSetOf_length hne
      have h2 := one_le_jsSetOf_length hni
      omega
    have hc0 : (0 : ℚ) ≤ (completeCount es : ℚ) / (es.length : ℚ) * 30 := by
      positivity
    have hv6 : (6 : ℚ) ≤ min ((varietyCount es : ℚ) * 3) 30 := by
      refine le_min ?_ (by norm_num)
      have h2 : (2 : ℚ) ≤ (varietyCount es : ℚ) := by exact_mod_cast hv
      linarith
    exact jsRound_le_of_le (by push_cast; linarith)
  · intro es h6
    simp only [calculateReadinessScore]
    rw [if_pos (by omega), h6]
    decide

/-- Witness for C10: the sparse seven-record list reaches the floor and the
six-record list scores 84. -/
theorem readiness_floor_and_boundary_witness :
    46 ≤ calculateReadinessScore exSparseSeven ∧
    calculateReadinessScore exSparseSix = 84 :=
  ⟨readiness_floor_and_boundary.1 exSparseSeven (by decide),
   readiness_floor_and_boundary.2.1 exSparseSix (by decide)⟩

/-- Claim C8: an empty denominator never faults and the affected item is
skipped — a record with an empty categories or thoughts mapping is never a
coherence day, a category with an empty contributing set in a window has no
average and produces no trend entry, and a thought label with an empty
contributing set has association 0; every function involved is total by
construction. -/
theorem empty_denominator_skips :
    (∀ e : DailyRecord, e.categories = [] ∨ e.thoughts = [] →
      isCoherentDay e = false ∧
      ∀ es : List DailyRecord,
        calculateCoherenceDays (e :: es) = calculateCoherenceDays es) ∧
    (∀ (es : List DailyRecord) (cat : String),
      es.filterMap (fun e => e.categories.lookup cat) = [] →
      calculateCategoryAverage es cat = none) ∧
    (∀ (entries : List DailyRecord) (cat : String),
      calculateCategoryAverage (recentWindow entries) cat = none ∨
        calculateCategoryAverage (olderWindow entries) cat = none →
      ∀ t ∈ analyzeCategoryTrends entries, t.category ≠ cat) ∧
    (∀ (entries : List DailyRecord) (th : String),
      contributingPairs entries th = [] →
      calculateThoughtImpact entries th = 0) := by
  have hfalse : ∀ e : DailyRecord, e.categories = [] ∨ e.thoughts = [] →
      isCoherentDay e = false := by
    intro e h
    rcases h with h | h
    · simp only [isCoherentDay, h, List.map_nil, List.sum_nil, List.length_nil,
        Nat.cast_zero, div_zero]
      rw [decide_eq_false (by norm_num : ¬ (6 : ℚ) ≤ 0),
        decide_eq_false (by norm_num : ¬ (7 : ℚ) ≤ 0)]
      simp
    · simp only [isCoherentDay, h, List.map_nil, List.sum_nil, List.length_nil,
        Nat.cast_zero, div_zero]
      rw [decide_eq_false (by norm_num : ¬ (6 : ℚ) ≤ 0),
        decide_eq_false (by norm_num : ¬ (7 : ℚ) ≤ 0)]
      simp
  refine ⟨?_, ?_, ?_, ?_⟩
  · intro e h
    refine ⟨hfalse e h, ?_⟩
    intro es
    unfold calculateCoherenceDays
    rw [List.countP_cons]
    simp [hfalse e h]
  · intro es cat hemp
    simp [calculateCategoryAverage, hemp]
  · intro entries cat havg t ht hcat
    simp only [analyzeCategoryTrends] at ht
    by_cases h7 : entries.length < 7
    · rw [if_pos h7] at ht
      exact absurd ht (List.not_mem_nil t)
    · rw [if_neg h7] at ht
      obtain ⟨c, _hc, hFc⟩ := List.mem_filterMap.mp ht
      have hc_eq : t.category = c := by
        rcases hra : calculateCategoryAverage (recentWindow entries) c with _ | ra
        · rw [hra] at hFc
          simp at hFc
        · rcases hoa : calculateCategoryAverage (olderWindow entries) c with _ | oa
          · rw [hra, hoa] at hFc
            simp at hFc
          · rw [hra, hoa] at hFc
            simp only [Option.some.injEq] at hFc
            rw [← hFc]
      rw [hc_eq] at hcat
      subst hcat
      rcases havg with h | h
      · rw [h] at hFc
        simp at hFc
      · rcases hra : calculateCategoryAverage (recentWindow entries) c with _ | ra
        · rw [hra] at hFc
          simp at hFc
        · rw [hra, h] at hFc
          simp at hFc
  · intro entries th h
    simp [calculateThoughtImpact, h]

/-- Witness for C8: a record with empty mappings is skipped everywhere and
the empty contributing sets give the skip results. -/
theorem empty_denominator_skips_witness :
    isCoherentDay (plainRecord "d" "low") = false ∧
    calculateCoherenceDays [plainRecord "d" "low"] = calculateCoherenceDays [] ∧
    calculateCategoryAverage [] "health" = none ∧
    (∀ t ∈ analyzeCategoryTrends exSparseSeven, t.category ≠ "health") ∧
    calculateThoughtImpact [] "focus" = 0 :=
  ⟨(empty_denominator_skips.1 (plainRecord "d" "low") (Or.inl rfl)).1,
   (empty_denominator_skips.1 (plainRecord "d" "low") (Or.inl rfl)).2 [],
   empty_denominator_skips.2.1 [] "health" rfl,
   empty_denominator_skips.2.2.1 exSparseSeven "health"
     (Or.inl (by with_unfolding_all rfl)),
   empty_denominator_skips.2.2.2 [] "focus" rfl⟩

end ConsciousnessAnalyzer
